import Mathlib

/-!
Shallow embedding of the clinical feature-encoding and prediction core of the
pdpcds project: `app/ml/preprocessor.py` (class `DataPreprocessor`) and
`app/ml/predictor.py` (class `ClinicalPredictor`), together with the parts of
`app/schemas/__init__.py` (the `DiseasePrediction`, `TestRecommendation` and
`MedicationRecommendation` pydantic models) they construct.

Python floats are modelled as rationals, Python `None`-able fields as `Option`,
Python lists as Lean lists, and the dense `dict[int, ...]` reference catalogs
(built with `enumerate` over database rows) as Lean lists indexed by position.
Code that can raise is modelled with `Except`.
-/

namespace PDPCDS

/-! ### String primitives (Python semantics) -/

/-- Python `pat in s` on strings: `pat` occurs as a contiguous substring of `s`. -/
def containsSub (s pat : List Char) : Bool :=
  match s with
  | [] => pat.isEmpty
  | _ :: t => pat.isPrefixOf s || containsSub t pat

/-- Python `s.count(pat)` for non-empty `pat`: the number of non-overlapping
occurrences of `pat` in `s`, counted greedily left to right. -/
def countOcc : List Char → List Char → Nat
  | [], _ => 0
  | c :: t, pat =>
    if pat.isPrefixOf (c :: t) then
      countOcc (t.drop (pat.length - 1)) pat + 1
    else
      countOcc t pat
termination_by s _ => s.length
decreasing_by
  · simp only [List.length_cons, List.length_drop]
    omega
  · simp [Nat.lt_succ_self]

/-- Python `s.lower().strip()`, the cleaning applied to every vocabulary term. -/
def lowerTrim (s : String) : String := s.toLower.trim

/-! ### Vocabularies (`DataPreprocessor._load_symptom_vocabulary`,
`_load_pmh_vocabulary`, and the keyword list of `preprocess_text`).
Python dicts preserve insertion order, so each vocabulary is an ordered list;
a term's slot is its position in the list. -/

/-- The 30-term symptom vocabulary, in its fixed insertion order. -/
def symptom_vocab : List String :=
  ["fever", "cough", "fatigue", "headache", "nausea", "vomiting",
   "diarrhea", "constipation", "chest pain", "abdominal pain",
   "shortness of breath", "dizziness", "weakness", "joint pain",
   "muscle pain", "sore throat", "runny nose", "congestion",
   "rash", "itching", "swelling", "difficulty swallowing",
   "productive cough", "dry cough", "night sweats", "chills",
   "loss of appetite", "weight loss", "weight gain", "insomnia"]

/-- The 20-term past-medical-history vocabulary, in its fixed insertion order. -/
def pmh_vocab : List String :=
  ["hypertension", "diabetes", "heart disease", "asthma", "copd",
   "cancer", "stroke", "kidney disease", "liver disease",
   "arthritis", "depression", "anxiety", "thyroid disorder",
   "high cholesterol", "obesity", "osteoporosis", "allergies",
   "migraines", "sleep apnea", "gastroesophageal reflux"]

/-- The 50 medical keywords scanned by `preprocess_text`, in order. -/
def medical_keywords : List String :=
  ["pain", "severe", "mild", "moderate", "chronic", "acute",
   "onset", "duration", "frequency", "radiation", "quality",
   "associated", "relieved", "worsened", "improved", "progressive",
   "intermittent", "constant", "burning", "sharp", "dull",
   "throbbing", "cramping", "pressure", "tightness", "aching",
   "stabbing", "shooting", "tingling", "numbness", "weakness",
   "swelling", "inflammation", "infection", "bleeding", "discharge",
   "lesion", "mass", "nodule", "growth", "ulcer", "wound",
   "trauma", "injury", "fracture", "sprain", "strain", "tear",
   "dysfunction", "failure", "obstruction", "stenosis", "dilation"]

/-! ### Vocabulary encoding (`preprocess_symptoms` / `preprocess_pmh`) -/

/-- The partial-match scan: the first vocabulary slot whose term contains the
cleaned input term as a substring, or is contained in it
(`cleaned in vocab_term or vocab_term in cleaned`). -/
def firstFuzzyIdx (vocab : List String) (t : String) : Option Nat :=
  vocab.findIdx? (fun v => containsSub v.data t.data || containsSub t.data v.data)

/-- The single slot (and weight) written when one input term is processed:
an exact match writes `1.0` to its slot; otherwise the first fuzzy match
writes the partial-match weight `w`; otherwise nothing is written. -/
def termWrite (vocab : List String) (w : ℚ) (raw : String) : Option (Nat × ℚ) :=
  let t := lowerTrim raw
  match vocab.findIdx? (fun v => v == t) with
  | some i => some (i, 1)
  | none =>
    match firstFuzzyIdx vocab t with
    | some i => some (i, w)
    | none => none

/-- One iteration of the `for symptom in symptom_list` loop body: apply the
term's write (if any) to the running vector, in place (`vector[idx] = weight`). -/
def processTerm (vocab : List String) (w : ℚ) (vec : List ℚ) (raw : String) : List ℚ :=
  match termWrite vocab w raw with
  | some (i, x) => vec.set i x
  | none => vec

/-- The full encoding loop: start from the all-zero vector of length
`|vocab|` and process the input terms in list order. -/
def encodeTerms (vocab : List String) (w : ℚ) (l : List String) : List ℚ :=
  l.foldl (processTerm vocab w) (List.replicate vocab.length 0)

/-- `DataPreprocessor.preprocess_symptoms` (partial-match weight 0.7). -/
def preprocess_symptoms (l : List String) : List ℚ := encodeTerms symptom_vocab (7/10) l

/-- `DataPreprocessor.preprocess_pmh` (partial-match weight 0.8). -/
def preprocess_pmh (l : List String) : List ℚ := encodeTerms pmh_vocab (8/10) l

/-! ### Patient record and vitals (`preprocess_vitals`) -/

/-- The fields of the input dict that `DataPreprocessor` reads.  `age` defaults
to 0 and `sex` to "other" in the source (`data.get(..., default)`); the four
numeric vitals may be absent (`None`). -/
structure PatientRecord where
  age : ℚ := 0
  sex : String := "other"
  vital_temperature_c : Option ℚ := none
  vital_heart_rate : Option ℚ := none
  vital_blood_pressure_systolic : Option ℚ := none
  vital_blood_pressure_diastolic : Option ℚ := none
  symptom_list : List String := []
  pmh_list : List String := []
  chief_complaint : String := ""
  free_text_notes : String := ""
deriving DecidableEq

/-- `DataPreprocessor.preprocess_vitals`: six centered/scaled scalars, with
each missing numeric vital replaced by `0.0`. -/
def preprocess_vitals (r : PatientRecord) : List ℚ :=
  [r.age / 100,
   if r.sex == "male" then 0 else if r.sex == "female" then 1 else 1/2,
   match r.vital_temperature_c with
   | some t => (t - 37) / 5
   | none => 0,
   match r.vital_heart_rate with
   | some hr => (hr - 70) / 50
   | none => 0,
   match r.vital_blood_pressure_systolic with
   | some s => (s - 120) / 40
   | none => 0,
   match r.vital_blood_pressure_diastolic with
   | some d => (d - 80) / 20
   | none => 0]

/-! ### Text keyword extraction (`preprocess_text`) -/

/-- `DataPreprocessor.preprocess_text`: for the falsy (empty) text an all-zero
vector of fixed size 50; otherwise one saturating occurrence count per keyword
(`min(count / 3.0, 1.0)` when the keyword occurs, slot left at zero otherwise). -/
def preprocess_text (text : String) : List ℚ :=
  if text == "" then
    List.replicate 50 0
  else
    medical_keywords.map (fun kw =>
      if containsSub text.toLower.data kw.data then
        min ((countOcc text.toLower.data kw.data : ℚ) / 3) 1
      else 0)

/-! ### Feature assembly (`preprocess_input`) -/

/-- `DataPreprocessor.preprocess_input`: concatenation of the vitals, symptom,
history and text segments in that frozen order.  The text blob is
`free_text_notes + " " + chief_complaint` as in the source. -/
def preprocess_input (r : PatientRecord) : List ℚ :=
  preprocess_vitals r ++ preprocess_symptoms r.symptom_list ++ preprocess_pmh r.pmh_list
    ++ preprocess_text (r.free_text_notes ++ " " ++ r.chief_complaint)

/-! ### Output schemas (`app/schemas/__init__.py`), with their pydantic
field defaults. -/

/-- `TestRecommendation` pydantic model. -/
structure TestRecommendation where
  test : String
  test_code : Option String := none
  confidence : ℚ
  urgency : Option String := some "routine"
  rationale : Option String := none
deriving DecidableEq

/-- `MedicationRecommendation` pydantic model. -/
structure MedicationRecommendation where
  medication : String
  generic_name : Option String := none
  confidence : ℚ
  dose_suggestion : Option String := none
  duration : Option String := none
  contraindication_check : Bool := true
  rationale : Option String := none
deriving DecidableEq

/-- `DiseasePrediction` pydantic model. -/
structure DiseasePrediction where
  icd10_code : String
  diagnosis : String
  confidence : ℚ
  recommended_tests : List TestRecommendation := []
  recommended_medications : List MedicationRecommendation := []
  assessment_plan : String
  rationale : List String := []
  risk_factors : List String := []
  differential_diagnoses : List String := []
deriving DecidableEq

/-! ### Reference catalogs.  The source builds `dict[int, ...]` mappings with
`enumerate` over database rows, so keys are dense `0..n-1`; they are modelled
as lists indexed by position.  The hardcoded minimal catalogs below are the
fallbacks used when the database load fails. -/

/-- One entry of the ICD-10 disease catalog. -/
structure Icd10Info where
  code : String
  description : String
  category : String
deriving DecidableEq

/-- One entry of the diagnostic-test catalog. -/
structure TestInfo where
  test : String
  code : String
  description : String
  category : String
deriving DecidableEq

/-- One entry of the medication catalog. -/
structure MedInfo where
  medication : String
  generic : String
  dose : String
  drug_class : String
deriving DecidableEq

/-- The hardcoded minimal ICD-10 catalog of `_load_icd10_mapping_from_db`. -/
def icd10_fallback : List Icd10Info :=
  [⟨"J18.9", "Pneumonia, unspecified organism", "Respiratory"⟩,
   ⟨"R50.9", "Fever, unspecified", "Symptoms"⟩,
   ⟨"R51", "Headache", "Symptoms"⟩,
   ⟨"R69", "Illness, unspecified", "Symptoms"⟩]

/-- The hardcoded minimal test catalog of `_load_test_mapping_from_db`. -/
def test_fallback : List TestInfo :=
  [⟨"Complete Blood Count (CBC)", "85025", "Complete blood count", "Laboratory"⟩,
   ⟨"Chest X-ray (PA/AP)", "71020", "Chest X-ray", "Imaging"⟩,
   ⟨"Basic Metabolic Panel", "80048", "Basic metabolic panel", "Laboratory"⟩]

/-- The hardcoded minimal medication catalog of `_load_medication_mapping_from_db`. -/
def med_fallback : List MedInfo :=
  [⟨"Acetaminophen", "Acetaminophen", "650 mg PO q6h PRN", "Analgesic"⟩,
   ⟨"Ibuprofen", "Ibuprofen", "400 mg PO q6h PRN", "NSAID"⟩,
   ⟨"Amoxicillin", "Amoxicillin", "500 mg PO TID", "Antibiotic"⟩]

/-! ### Rule-based fallback engine (`ClinicalPredictor._generate_dummy_predictions`) -/

/-- `any("pat" in s.lower() for s in l)`. -/
def anyContains (l : List String) (pat : String) : Bool :=
  l.any (fun s => containsSub s.toLower.data pat.data)

/-- Python truthiness-guarded comparison `temp and temp > x` for an optional
temperature (both `None` and `0.0` are falsy). -/
def tempTruthyGt (temp : Option ℚ) (x : ℚ) : Bool :=
  match temp with
  | some t => !(t == 0) && decide (x < t)
  | none => false

/-- Rule 1 candidate: pneumonia, fixed confidence 0.82. -/
def pneumoniaPrediction (t : ℚ) : DiseasePrediction :=
  { icd10_code := "J18.9", diagnosis := "Pneumonia, unspecified organism",
    confidence := 82/100,
    recommended_tests :=
      [{ test := "Chest X-ray (PA/AP)", confidence := 9/10 },
       { test := "Complete Blood Count (CBC)", confidence := 8/10 }],
    recommended_medications :=
      [{ medication := "Amoxicillin-clavulanate", confidence := 78/100,
         dose_suggestion := some "500 mg PO TID", duration := some "7-10 days" }],
    assessment_plan := "Likely community-acquired pneumonia. Obtain chest x-ray and CBC; start empiric oral antibiotics considering allergy history. Re-evaluate in 48 hours.",
    rationale := ["Fever (" ++ toString t ++ "°C)", "Productive cough reported",
      "Clinical presentation consistent with respiratory infection"] }

/-- Rule 2 candidate: unspecified fever, fixed confidence 0.65. -/
def feverPrediction (t : ℚ) : DiseasePrediction :=
  { icd10_code := "R50.9", diagnosis := "Fever, unspecified", confidence := 65/100,
    recommended_tests :=
      [{ test := "Complete Blood Count (CBC)", confidence := 8/10 },
       { test := "Urinalysis", confidence := 6/10 }],
    recommended_medications :=
      [{ medication := "Acetaminophen", confidence := 9/10,
         dose_suggestion := some "650 mg PO q6h PRN", duration := some "As needed" }],
    assessment_plan := "Fever of unknown origin. Supportive care and symptomatic treatment. Monitor for additional symptoms.",
    rationale := ["Elevated temperature (" ++ toString t ++ "°C)", "No clear source identified"] }

/-- Rule 3 candidate: headache, fixed confidence 0.70. -/
def headachePrediction : DiseasePrediction :=
  { icd10_code := "R51", diagnosis := "Headache", confidence := 70/100,
    recommended_tests := [{ test := "Basic Metabolic Panel", confidence := 5/10 }],
    recommended_medications :=
      [{ medication := "Ibuprofen", confidence := 85/100,
         dose_suggestion := some "400 mg PO q6h PRN", duration := some "As needed" }],
    assessment_plan := "Primary headache. Symptomatic treatment with NSAIDs. Consider neurological evaluation if persistent or severe.",
    rationale := ["Patient reports headache"] }

/-- Rule 4 candidate: bronchitis, fixed confidence 0.68. -/
def bronchitisPrediction : DiseasePrediction :=
  { icd10_code := "J40", diagnosis := "Bronchitis, not specified as acute or chronic",
    confidence := 68/100,
    recommended_tests := [{ test := "Chest X-ray (PA/AP)", confidence := 7/10 }],
    recommended_medications :=
      [{ medication := "Dextromethorphan", confidence := 75/100,
         dose_suggestion := some "15 mg PO q4h PRN", duration := some "As needed for cough" }],
    assessment_plan := "Bronchitis, likely viral etiology. Supportive care with cough suppressants. Monitor for bacterial superinfection.",
    rationale := ["Cough without fever suggests viral bronchitis"] }

/-- Rule 5 candidate: the default general-exam prediction, fixed confidence 0.40. -/
def defaultPrediction : DiseasePrediction :=
  { icd10_code := "Z00.00",
    diagnosis := "Encounter for general adult medical examination without abnormal findings",
    confidence := 40/100,
    recommended_tests := [{ test := "Complete Blood Count (CBC)", confidence := 6/10 }],
    recommended_medications := [],
    assessment_plan := "Non-specific symptoms. Recommend follow-up if symptoms persist or worsen. Consider routine health maintenance.",
    rationale := ["Non-specific clinical presentation"] }

/-- One catalog-padding entry, appended at index `idx`, with synthetic
confidence `max(0.3 - idx * 0.1, 0.1)`. -/
def padPrediction (e : Icd10Info) (idx : Nat) : DiseasePrediction :=
  { icd10_code := e.code, diagnosis := e.description,
    confidence := max (3/10 - (idx : ℚ) / 10) (1/10),
    recommended_tests := [], recommended_medications := [],
    assessment_plan := "Consider as differential diagnosis. Additional evaluation may be needed.",
    rationale := ["Differential diagnosis consideration"] }

/-- Rules 1 and 2 of the fallback engine (an `if`/`elif` pair on temperature). -/
def branch12 (r : PatientRecord) : List DiseasePrediction :=
  match r.vital_temperature_c with
  | some t =>
    if !(t == 0) && decide ((38 : ℚ) < t) && anyContains r.symptom_list "cough" then
      [pneumoniaPrediction t]
    else if !(t == 0) && decide ((75/2 : ℚ) < t) then
      [feverPrediction t]
    else []
  | none => []

/-- Rules 3 and 4 of the fallback engine: a second, independent `if`/`elif`
pair — rule 4 is the `elif` of the headache test of rule 3, not of rule 1. -/
def branch34 (r : PatientRecord) : List DiseasePrediction :=
  if anyContains r.symptom_list "headache" then [headachePrediction]
  else if anyContains r.symptom_list "cough" then [bronchitisPrediction]
  else []

/-- The candidates appended by the four symptom/vital rules, in order. -/
def branchPredictions (r : PatientRecord) : List DiseasePrediction :=
  branch12 r ++ branch34 r

/-- Rule 5: the default prediction when no rule matched (`if not predictions`). -/
def branchesWithDefault (r : PatientRecord) : List DiseasePrediction :=
  let p := branchPredictions r
  if p.isEmpty then [defaultPrediction] else p

/-- The `while len(predictions) < 3 and len(predictions) < len(icd10_mapping)`
padding loop.  The mapping is dense (`enumerate`), so the loop-body membership
test `next_idx in self.icd10_mapping` always succeeds under the loop guard. -/
def padPredictions (catalog : List Icd10Info) (preds : List DiseasePrediction) :
    List DiseasePrediction :=
  if h : preds.length < 3 ∧ preds.length < catalog.length then
    padPredictions catalog (preds ++ [padPrediction (catalog.get ⟨preds.length, h.2⟩) preds.length])
  else preds
termination_by 3 - preds.length
decreasing_by simp only [List.length_append, List.length_cons, List.length_nil]; omega

/-- `ClinicalPredictor._generate_dummy_predictions`. -/
def generate_dummy_predictions (catalog : List Icd10Info) (r : PatientRecord) :
    List DiseasePrediction :=
  (padPredictions catalog (branchesWithDefault r)).take 3

/-! ### Scored path (`ClinicalPredictor.predict` when a model is loaded).
`torch.topk(x, k, sorted=True)` returns the `k` largest entries in descending
order; for equal values the entry with the smaller index comes first.  It is
modelled by sorting the indexed score list with the total order "higher score
first, ties by lower index first" and taking the first `k`. -/

/-- The ranking order of `torch.topk`: higher score first, ties broken by
ascending index. -/
def scoreOrder (a b : Nat × ℚ) : Prop := b.2 < a.2 ∨ (a.2 = b.2 ∧ a.1 ≤ b.1)

instance : DecidableRel scoreOrder := fun a b => by
  unfold scoreOrder; infer_instance

instance : IsTotal (Nat × ℚ) scoreOrder where
  total a b := by
    rcases lt_trichotomy a.2 b.2 with h | h | h
    · exact Or.inr (Or.inl h)
    · rcases Nat.le_total a.1 b.1 with h1 | h1
      · exact Or.inl (Or.inr ⟨h, h1⟩)
      · exact Or.inr (Or.inr ⟨h.symm, h1⟩)
    · exact Or.inl (Or.inl h)

instance : IsTrans (Nat × ℚ) scoreOrder where
  trans a b c hab hbc := by
    rcases hab with hab | ⟨hab, hab1⟩
    · rcases hbc with hbc | ⟨hbc, _⟩
      · exact Or.inl (hbc.trans hab)
      · exact Or.inl (hbc ▸ hab)
    · rcases hbc with hbc | ⟨hbc, hbc1⟩
      · exact Or.inl (hab ▸ hbc)
      · exact Or.inr ⟨hab.trans hbc, hab1.trans hbc1⟩

/-- `torch.topk(scores, k)` as (index, value) pairs. -/
def topk (scores : List ℚ) (k : Nat) : List (Nat × ℚ) :=
  (List.insertionSort scoreOrder scores.enum).take k

/-- The three score arrays produced by one forward pass of
`ClinicalDecisionModel` (`disease_probabilities`, `test_probabilities`,
`medication_probabilities`). -/
structure ModelOutputs where
  disease_probabilities : List ℚ
  test_probabilities : List ℚ
  medication_probabilities : List ℚ
deriving DecidableEq

/-- The `relevant_tests` list built from the globally selected test indices:
indices absent from the test catalog are skipped. -/
def buildTests (testCatalog : List TestInfo) (sel : List (Nat × ℚ)) :
    List TestRecommendation :=
  sel.filterMap (fun ic =>
    (testCatalog.get? ic.1).map (fun info =>
      { test := info.test, confidence := ic.2 }))

/-- The `relevant_meds` list built from the globally selected medication
indices: indices absent from the medication catalog are skipped. -/
def buildMeds (medCatalog : List MedInfo) (sel : List (Nat × ℚ)) :
    List MedicationRecommendation :=
  sel.filterMap (fun ic =>
    (medCatalog.get? ic.1).map (fun info =>
      { medication := info.medication, confidence := ic.2,
        dose_suggestion := some info.dose }))

/-- The scored-path conversion loop of `ClinicalPredictor.predict` (lines
348-409): top-3 diseases, top-3 tests and top-2 medications are selected once
from the score arrays; each selected disease index present in the ICD-10
catalog becomes one prediction carrying the same two global recommendation
lists (the source rebuilds the identical `relevant_tests`/`relevant_meds`
lists inside the disease loop); absent indices are skipped. -/
def scoredPredictions (icd10Catalog : List Icd10Info) (testCatalog : List TestInfo)
    (medCatalog : List MedInfo) (out : ModelOutputs) : List DiseasePrediction :=
  let dsel := topk out.disease_probabilities (min 3 out.disease_probabilities.length)
  let tsel := topk out.test_probabilities (min 3 out.test_probabilities.length)
  let msel := topk out.medication_probabilities (min 2 out.medication_probabilities.length)
  let relTests := buildTests testCatalog tsel
  let relMeds := buildMeds medCatalog msel
  dsel.filterMap (fun ic =>
    (icd10Catalog.get? ic.1).map (fun info =>
      { icd10_code := info.code, diagnosis := info.description, confidence := ic.2,
        recommended_tests := relTests, recommended_medications := relMeds,
        assessment_plan := "ML model suggests " ++ info.description.toLower ++
          ". Confidence: " ++ toString ic.2 ++
          ". Recommend appropriate diagnostic workup and treatment based on clinical context.",
        rationale := ["ML model prediction based on clinical features",
          "Model confidence: " ++ toString ic.2] }))

/-- The hardcoded width the scored path reconciles against
(`expected_dim = 106  # Model was trained with 106 features`). -/
def expected_dim : Nat := 106

/-- The dimension-reconciliation step of `ClinicalPredictor.predict` (lines
328-338): pass through on equal length, crop to the leading prefix when too
long, append trailing zeros when too short. -/
def reconcile (v : List ℚ) (W : Nat) : List ℚ :=
  if v.length = W then v
  else if W < v.length then v.take W
  else v ++ List.replicate (W - v.length) 0

/-- The single generic prediction returned by the `except` handler of
`ClinicalPredictor.predict`. -/
def errorPrediction (msg : String) : DiseasePrediction :=
  { icd10_code := "R69", diagnosis := "Illness, unspecified", confidence := 3/10,
    recommended_tests := [], recommended_medications := [],
    assessment_plan := "Unable to generate specific prediction. Recommend clinical evaluation.",
    rationale := ["Prediction error: " ++ msg] }

/-- `ClinicalPredictor.predict`.  The loaded scoring model is an external
collaborator, modelled as an optional fallible function from the reconciled
feature vector to the three score arrays (`Except` models a raised exception,
absorbed by the `try`/`except` of the source into `errorPrediction`); `none`
models the permanent fallback mode when no model file was loaded. -/
def predict (score : Option (List ℚ → Except String ModelOutputs))
    (icd10Catalog : List Icd10Info) (testCatalog : List TestInfo)
    (medCatalog : List MedInfo) (r : PatientRecord) : List DiseasePrediction :=
  match score with
  | some f =>
    match f (reconcile (preprocess_input r) expected_dim) with
    | .ok out => scoredPredictions icd10Catalog testCatalog medCatalog out
    | .error e => [errorPrediction e]
  | none => generate_dummy_predictions icd10Catalog r

/-! ## Helper lemmas -/

theorem processTerm_length (vocab : List String) (w : ℚ) (vec : List ℚ) (raw : String) :
    (processTerm vocab w vec raw).length = vec.length := by
  unfold processTerm
  cases termWrite vocab w raw with
  | none => rfl
  | some p => simp

theorem foldl_processTerm_length (vocab : List String) (w : ℚ) (l : List String)
    (vec : List ℚ) : (l.foldl (processTerm vocab w) vec).length = vec.length := by
  induction l generalizing vec with
  | nil => rfl
  | cons a t ih => rw [List.foldl_cons, ih, processTerm_length]

theorem encodeTerms_length (vocab : List String) (w : ℚ) (l : List String) :
    (encodeTerms vocab w l).length = vocab.length := by
  rw [encodeTerms, foldl_processTerm_length, List.length_replicate]

/-- A slot no remaining term writes to is preserved by the encoding loop. -/
theorem foldl_processTerm_get_eq (vocab : List String) (w : ℚ) (i : Nat) (l : List String)
    (vec : List ℚ) (h : ∀ u ∈ l, ∀ x : ℚ, termWrite vocab w u ≠ some (i, x)) :
    (l.foldl (processTerm vocab w) vec).get? i = vec.get? i := by
  induction l generalizing vec with
  | nil => rfl
  | cons u t ih =>
    rw [List.foldl_cons, ih _ (fun v hv => h v (List.mem_cons_of_mem u hv))]
    unfold processTerm
    cases hw : termWrite vocab w u with
    | none => rfl
    | some p =>
      rcases p with ⟨j, x⟩
      have hji : j ≠ i := by
        intro hji
        exact h u (List.mem_cons_self u t) x (by rw [hw, hji])
      exact List.get?_set_ne x vec hji

/-- Generic form of the amended order-sensitivity property: an exact-match
term ends with weight 1.0 in its slot provided no later term of the input
list writes to that slot. -/
theorem encode_exact_then_quiet (vocab : List String) (w : ℚ) (l1 l2 : List String)
    (t : String) (i : Nat)
    (hex : vocab.findIdx? (fun v => v == lowerTrim t) = some i)
    (hafter : ∀ u ∈ l2, ∀ x : ℚ, termWrite vocab w u ≠ some (i, x)) :
    (encodeTerms vocab w (l1 ++ t :: l2)).get? i = some 1 := by
  have hi : i < vocab.length :=
    (List.findIdx?_eq_some_iff_findIdx_eq.mp hex).1
  have hwrite : termWrite vocab w t = some (i, 1) := by
    simp only [termWrite]
    rw [hex]
  unfold encodeTerms
  rw [List.foldl_append, List.foldl_cons,
    foldl_processTerm_get_eq vocab w i l2 _ hafter]
  have hstep : processTerm vocab w
      (l1.foldl (processTerm vocab w) (List.replicate vocab.length 0)) t
      = (l1.foldl (processTerm vocab w) (List.replicate vocab.length 0)).set i 1 := by
    simp only [processTerm, hwrite]
  rw [hstep]
  have hlen : (l1.foldl (processTerm vocab w) (List.replicate vocab.length 0)).length
      = vocab.length := by
    rw [foldl_processTerm_length, List.length_replicate]
  exact List.get?_set_eq_of_lt 1 (by rw [hlen]; exact hi)

/-! ## Claims -/

/-- C1, counterexample.  "cough" is slot 1 of the symptom vocabulary (already
lowercased and trimmed), and the input term "cough" matches it exactly; yet in
`["cough", "coughing"]` the later term "coughing" partially matches slot 1 and
overwrites the exact match's 1.0 with 0.7, so the exact match does not end at
weight 1.0 and the two permutations of the list encode differently. -/
theorem C1_counterexample :
    symptom_vocab.get? 1 = some "cough"
    ∧ lowerTrim "cough" = "cough"
    ∧ (preprocess_symptoms ["cough", "coughing"]).get? 1 = some (7/10)
    ∧ preprocess_symptoms ["cough", "coughing"]
        ≠ preprocess_symptoms ["coughing", "cough"] := by
  with_unfolding_all decide

/-- C1, amended.  Each input term that exactly equals a vocabulary term (after
lowercasing and trimming) ends with weight exactly 1.0 in that term's slot
provided no later term of the input list writes to that slot (the single-pass
loop lets a later term's partial match overwrite an earlier exact match, so
the encoder output is order-dependent in general); likewise for the history
encoder. -/
theorem C1_amended :
    (∀ (l1 l2 : List String) (t : String) (i : Nat),
      symptom_vocab.findIdx? (fun v => v == lowerTrim t) = some i →
      (∀ u ∈ l2, ∀ x : ℚ, termWrite symptom_vocab (7/10) u ≠ some (i, x)) →
      (preprocess_symptoms (l1 ++ t :: l2)).get? i = some 1)
    ∧ (∀ (l1 l2 : List String) (t : String) (i : Nat),
      pmh_vocab.findIdx? (fun v => v == lowerTrim t) = some i →
      (∀ u ∈ l2, ∀ x : ℚ, termWrite pmh_vocab (8/10) u ≠ some (i, x)) →
      (preprocess_pmh (l1 ++ t :: l2)).get? i = some 1) :=
  ⟨fun l1 l2 t i hex hafter => encode_exact_then_quiet symptom_vocab (7/10) l1 l2 t i hex hafter,
   fun l1 l2 t i hex hafter => encode_exact_then_quiet pmh_vocab (8/10) l1 l2 t i hex hafter⟩

/-- C1, witness: in the reversed list `["coughing", "cough"]` the exact match
"cough" is last, nothing writes to slot 1 after it, and the final weight
there is 1.0. -/
theorem C1_amended_witness :
    (preprocess_symptoms (["coughing"] ++ "cough" :: [])).get? 1 = some 1 :=
  C1_amended.1 ["coughing"] [] "cough" 1 (by with_unfolding_all decide)
    (by intro u hu x; exact absurd hu (List.not_mem_nil u))

/-- A string that does not occur as a substring occurs zero times. -/
theorem countOcc_eq_zero (s pat : List Char) (h : containsSub s pat = false) :
    countOcc s pat = 0 := by
  induction s with
  | nil => simp [countOcc]
  | cons c t ih =>
    rw [containsSub, Bool.or_eq_false_iff] at h
    rw [countOcc, if_neg (by rw [h.1]; exact Bool.false_ne_true)]
    exact ih h.2

/-- The text blob assembled by `preprocess_input` always contains the joining
space, so it is never the empty string. -/
theorem text_blob_ne_empty (a b : String) : a ++ " " ++ b ≠ "" := by
  intro h
  have hlen := congrArg String.length h
  rw [String.length_append, String.length_append] at hlen
  have h1 : (" " : String).length = 1 := rfl
  have h0 : ("" : String).length = 0 := rfl
  omega

/-- C8, counterexample.  The fixed keyword list of `preprocess_text` has 53
entries, not 50: for the one-word text "pain" the text-keyword segment has
length 53, while the early return for empty text has the inconsistent length
50. -/
theorem C8_counterexample :
    medical_keywords.length = 53
    ∧ (preprocess_text "pain").length = 53
    ∧ (preprocess_text "pain").length ≠ 50
    ∧ (preprocess_text "").length = 50
    ∧ (preprocess_text "pain").length ≠ (preprocess_text "").length := by
  with_unfolding_all decide

/-- C8, amended.  The fixed keyword list has 53 entries (not 50).  For every
non-empty text blob the segment has length 53, and the entry for keyword `kw`
equals `min(occurrence_count / 3.0, 1.0)` where `occurrence_count` counts
non-overlapping substring occurrences of the lowercased keyword in the
lowercased text; an empty text yields an all-zero vector of length 50 (the
early return is shorter than the 53-wide non-empty case). -/
theorem C8_amended :
    medical_keywords.length = 53
    ∧ (∀ text : String, text ≠ "" →
        (preprocess_text text).length = 53
        ∧ ∀ i kw, medical_keywords.get? i = some kw →
          (preprocess_text text).get? i
            = some (min ((countOcc text.toLower.data kw.data : ℚ) / 3) 1))
    ∧ preprocess_text "" = List.replicate 50 0 := by
  refine ⟨rfl, ?_, rfl⟩
  intro text h
  have hbeq : (text == "") = false := beq_eq_false_iff_ne.mpr h
  rw [preprocess_text, if_neg (by rw [hbeq]; exact Bool.false_ne_true)]
  refine ⟨rfl, ?_⟩
  intro i kw hkw
  rw [List.get?_map, hkw, Option.map_some']
  cases hc : containsSub text.toLower.data kw.data with
  | true => simp
  | false =>
    rw [countOcc_eq_zero _ _ hc]
    norm_num [min_def]

/-- C8, witness: the text "pain pain pain pain" contains keyword 0 ("pain")
four times, and `min(4/3, 1) = 1` saturates the slot at 1. -/
theorem C8_amended_witness :
    (preprocess_text "pain pain pain pain").get? 0 = some 1 := by
  have h := (C8_amended.2.1 "pain pain pain pain" (by with_unfolding_all decide)).2 0 "pain" rfl
  rw [h]
  with_unfolding_all decide

/-- C3, counterexample.  With the built-in vocabularies the assembled feature
vector of the all-default record has length 109, not 106, because the keyword
list has 53 entries, not 50. -/
theorem C3_counterexample :
    (preprocess_input {}).length = 109
    ∧ (preprocess_input {}).length ≠ 106
    ∧ medical_keywords.length ≠ 50 := by
  with_unfolding_all decide

/-- C3, amended.  For every record the assembled vector has length
`6 + |symptom vocab| + |pmh vocab| + |keyword list|` = 6 + 30 + 20 + 53 = 109
(the text blob always contains the joining space, so the 53-wide non-empty
branch is always taken).  Reconciliation against the width `W` hardcoded in
the predictor (`expected_dim = 106`) behaves as claimed: pass through when
`L = W`, keep the leading `W`-prefix when `L > W`, append trailing zeros when
`L < W`, and it never fails; consequently the scored path always crops the
109-long assembled vector to its first 106 elements. -/
theorem C3_amended :
    (∀ r : PatientRecord,
      (preprocess_input r).length
        = 6 + symptom_vocab.length + pmh_vocab.length + medical_keywords.length
      ∧ (preprocess_input r).length = 109)
    ∧ (∀ (v : List ℚ) (W : Nat),
        (reconcile v W).length = W
        ∧ (v.length = W → reconcile v W = v)
        ∧ (W < v.length → reconcile v W = v.take W)
        ∧ (v.length < W → reconcile v W = v ++ List.replicate (W - v.length) 0))
    ∧ (∀ r : PatientRecord,
        reconcile (preprocess_input r) expected_dim = (preprocess_input r).take 106) := by
  have hlen : ∀ r : PatientRecord, (preprocess_input r).length = 109 := by
    intro r
    rw [preprocess_input, List.length_append, List.length_append, List.length_append]
    have h1 : (preprocess_vitals r).length = 6 := by
      rw [preprocess_vitals]; rfl
    have h2 : (preprocess_symptoms r.symptom_list).length = 30 := by
      rw [preprocess_symptoms, encodeTerms_length]; rfl
    have h3 : (preprocess_pmh r.pmh_list).length = 20 := by
      rw [preprocess_pmh, encodeTerms_length]; rfl
    have h4 : (preprocess_text (r.free_text_notes ++ " " ++ r.chief_complaint)).length = 53 := by
      have hbeq : ((r.free_text_notes ++ " " ++ r.chief_complaint) == "") = false :=
        beq_eq_false_iff_ne.mpr (text_blob_ne_empty _ _)
      rw [preprocess_text, if_neg (by rw [hbeq]; exact Bool.false_ne_true), List.length_map]
      rfl
    omega
  have hrec : ∀ (v : List ℚ) (W : Nat),
      (reconcile v W).length = W
      ∧ (v.length = W → reconcile v W = v)
      ∧ (W < v.length → reconcile v W = v.take W)
      ∧ (v.length < W → reconcile v W = v ++ List.replicate (W - v.length) 0) := by
    intro v W
    refine ⟨?_, ?_, ?_, ?_⟩
    · rw [reconcile]
      split_ifs with h1 h2
      · exact h1
      · rw [List.length_take]; omega
      · rw [List.length_append, List.length_replicate]; omega
    · intro h; rw [reconcile, if_pos h]
    · intro h; rw [reconcile, if_neg (by omega), if_pos h]
    · intro h; rw [reconcile, if_neg (by omega), if_neg (by omega)]
  refine ⟨fun r => ⟨?_, hlen r⟩, hrec, fun r => ?_⟩
  · rw [hlen r]; rfl
  · exact (hrec (preprocess_input r) expected_dim).2.2.1 (by rw [hlen r]; norm_num [expected_dim])

/-- C3, witness: a 3-long vector is cropped to its leading 2-prefix and a
1-long vector is padded with two trailing zeros. -/
theorem C3_amended_witness :
    reconcile [1, 2, 3] 2 = [1, 2] ∧ reconcile [5] 3 = [5, 0, 0] := by
  constructor
  · rw [(C3_amended.2.1 [1, 2, 3] 2).2.2.1 (by decide)]
    rfl
  · rw [(C3_amended.2.1 [5] 3).2.2.2 (by decide)]
    rfl

/-- C6, confirmed.  The vitals segment is exactly the six scalars
[age/100, sex encoding (male 0.0, female 1.0, other 0.5), (t-37)/5,
(hr-70)/50, (sys-120)/40, (dia-80)/20], each missing numeric vital replaced
by 0.0 (the normalizer is a total function by construction); the all-empty
record encodes to the vitals segment [0, 1/2, 0, 0, 0, 0] followed by
all-zero symptom/history/keyword segments. -/
theorem C6_vitals :
    (∀ r : PatientRecord,
      (preprocess_vitals r).length = 6
      ∧ (preprocess_vitals r).get? 0 = some (r.age / 100)
      ∧ (r.sex = "male" → (preprocess_vitals r).get? 1 = some 0)
      ∧ (r.sex = "female" → (preprocess_vitals r).get? 1 = some 1)
      ∧ (r.sex ≠ "male" → r.sex ≠ "female" → (preprocess_vitals r).get? 1 = some (1/2))
      ∧ (∀ t, r.vital_temperature_c = some t →
          (preprocess_vitals r).get? 2 = some ((t - 37) / 5))
      ∧ (r.vital_temperature_c = none → (preprocess_vitals r).get? 2 = some 0)
      ∧ (∀ hr, r.vital_heart_rate = some hr →
          (preprocess_vitals r).get? 3 = some ((hr - 70) / 50))
      ∧ (r.vital_heart_rate = none → (preprocess_vitals r).get? 3 = some 0)
      ∧ (∀ s, r.vital_blood_pressure_systolic = some s →
          (preprocess_vitals r).get? 4 = some ((s - 120) / 40))
      ∧ (r.vital_blood_pressure_systolic = none → (preprocess_vitals r).get? 4 = some 0)
      ∧ (∀ d, r.vital_blood_pressure_diastolic = some d →
          (preprocess_vitals r).get? 5 = some ((d - 80) / 20))
      ∧ (r.vital_blood_pressure_diastolic = none → (preprocess_vitals r).get? 5 = some 0))
    ∧ preprocess_input {} = [0, 1/2, 0, 0, 0, 0] ++ List.replicate 103 0 := by
  constructor
  · intro r
    refine ⟨rfl, rfl, ?_, ?_, ?_, ?_, ?_, ?_, ?_, ?_, ?_, ?_, ?_⟩
    · intro h; simp [preprocess_vitals, h]
    · intro h; simp [preprocess_vitals, h]
    · intro h1 h2; simp [preprocess_vitals, beq_eq_false_iff_ne.mpr h1, beq_eq_false_iff_ne.mpr h2]
    · intro t h; simp [preprocess_vitals, h]
    · intro h; simp [preprocess_vitals, h]
    · intro hr h; simp [preprocess_vitals, h]
    · intro h; simp [preprocess_vitals, h]
    · intro s h; simp [preprocess_vitals, h]
    · intro h; simp [preprocess_vitals, h]
    · intro d h; simp [preprocess_vitals, h]
    · intro h; simp [preprocess_vitals, h]
  · with_unfolding_all decide

/-- C6, witness: a female record with temperature 40 °C has sex slot 1.0 and
temperature slot (40-37)/5 = 3/5. -/
theorem C6_vitals_witness :
    (preprocess_vitals { sex := "female", vital_temperature_c := some 40 }).get? 1 = some 1
    ∧ (preprocess_vitals { sex := "female", vital_temperature_c := some 40 }).get? 2
        = some ((40 - 37) / 5) :=
  ⟨(C6_vitals.1 { sex := "female", vital_temperature_c := some 40 }).2.2.2.1 rfl,
   (C6_vitals.1 { sex := "female", vital_temperature_c := some 40 }).2.2.2.2.2.1 40 rfl⟩

/-- Characterization of the partial-match scan helper: the slot it returns
carries the first vocabulary term related to `t` by the two-sided substring
test, and every earlier vocabulary term is unrelated. -/
theorem firstFuzzyIdx_spec (vocab : List String) (t : String) (i : Nat)
    (h : firstFuzzyIdx vocab t = some i) :
    i < vocab.length
    ∧ (∃ v, vocab.get? i = some v
        ∧ (containsSub v.data t.data || containsSub t.data v.data) = true)
    ∧ (∀ j, j < i → ∀ u, vocab.get? j = some u →
        (containsSub u.data t.data || containsSub t.data u.data) = false) := by
  rw [firstFuzzyIdx, List.findIdx?_eq_some_iff_findIdx_eq] at h
  obtain ⟨hi, hfind⟩ := h
  refine ⟨hi, ⟨vocab.get ⟨i, hi⟩, ?_, ?_⟩, ?_⟩
  · rw [List.get?_eq_get hi]
  · have := @List.findIdx_getElem _ (fun v => containsSub v.data t.data || containsSub t.data v.data)
      vocab (by rw [hfind]; exact hi)
    simpa [hfind] using this
  · intro j hj u hu
    have hjlen : j < vocab.length := Nat.lt_trans hj hi
    rw [List.get?_eq_get hjlen] at hu
    have hp := @List.not_of_lt_findIdx _ (fun v => containsSub v.data t.data || containsSub t.data v.data)
      vocab j (by rw [hfind]; exact hj)
    have hu2 : vocab.get ⟨j, hjlen⟩ = u := Option.some_injective _ hu
    rw [← hu2]
    simpa using hp

/-- C7, confirmed.  For an input term with no exact vocabulary match, the
encoder scans the vocabulary in its fixed order and writes the partial weight
(0.7 for symptoms, 0.8 for history) to the slot of the first vocabulary term
related to the cleaned term by the two-sided substring test, touching no other
slot; with no exact and no partial match, the vector is unchanged. -/
theorem C7_partial_match :
    (∀ (vec : List ℚ) (raw : String),
      symptom_vocab.findIdx? (fun v => v == lowerTrim raw) = none →
      (∀ i, firstFuzzyIdx symptom_vocab (lowerTrim raw) = some i →
        processTerm symptom_vocab (7/10) vec raw = vec.set i (7/10)
        ∧ (∃ v, symptom_vocab.get? i = some v
            ∧ (containsSub v.data (lowerTrim raw).data
                || containsSub (lowerTrim raw).data v.data) = true)
        ∧ (∀ j, j < i → ∀ u, symptom_vocab.get? j = some u →
            (containsSub u.data (lowerTrim raw).data
              || containsSub (lowerTrim raw).data u.data) = false))
      ∧ (firstFuzzyIdx symptom_vocab (lowerTrim raw) = none →
          processTerm symptom_vocab (7/10) vec raw = vec))
    ∧ (∀ (vec : List ℚ) (raw : String),
      pmh_vocab.findIdx? (fun v => v == lowerTrim raw) = none →
      (∀ i, firstFuzzyIdx pmh_vocab (lowerTrim raw) = some i →
        processTerm pmh_vocab (8/10) vec raw = vec.set i (8/10)
        ∧ (∃ v, pmh_vocab.get? i = some v
            ∧ (containsSub v.data (lowerTrim raw).data
                || containsSub (lowerTrim raw).data v.data) = true)
        ∧ (∀ j, j < i → ∀ u, pmh_vocab.get? j = some u →
            (containsSub u.data (lowerTrim raw).data
              || containsSub (lowerTrim raw).data u.data) = false))
      ∧ (firstFuzzyIdx pmh_vocab (lowerTrim raw) = none →
          processTerm pmh_vocab (8/10) vec raw = vec)) := by
  have hgen : ∀ (vocab : List String) (w : ℚ) (vec : List ℚ) (raw : String),
      vocab.findIdx? (fun v => v == lowerTrim raw) = none →
      (∀ i, firstFuzzyIdx vocab (lowerTrim raw) = some i →
        processTerm vocab w vec raw = vec.set i w
        ∧ (∃ v, vocab.get? i = some v
            ∧ (containsSub v.data (lowerTrim raw).data
                || containsSub (lowerTrim raw).data v.data) = true)
        ∧ (∀ j, j < i → ∀ u, vocab.get? j = some u →
            (containsSub u.data (lowerTrim raw).data
              || containsSub (lowerTrim raw).data u.data) = false))
      ∧ (firstFuzzyIdx vocab (lowerTrim raw) = none →
          processTerm vocab w vec raw = vec) := by
    intro vocab w vec raw hne
    constructor
    · intro i hf
      obtain ⟨hi, hv, hbefore⟩ := firstFuzzyIdx_spec vocab (lowerTrim raw) i hf
      refine ⟨?_, hv, hbefore⟩
      simp only [processTerm, termWrite]
      rw [hne, hf]
    · intro hf
      simp only [processTerm, termWrite]
      rw [hne, hf]
  exact ⟨fun vec raw hne => hgen symptom_vocab (7/10) vec raw hne,
    fun vec raw hne => hgen pmh_vocab (8/10) vec raw hne⟩

/-- C7, witness: "coughing" has no exact match; the first related vocabulary
term is "cough" at slot 1, which receives weight 0.7 in an all-zero vector
while all other slots stay zero. -/
theorem C7_partial_match_witness :
    processTerm symptom_vocab (7/10) (List.replicate 30 0) "coughing"
      = (List.replicate 30 0).set 1 (7/10) :=
  ((C7_partial_match.1 (List.replicate 30 0) "coughing"
      (by with_unfolding_all decide)).1 1 (by with_unfolding_all decide)).1

/-- The padding loop only ever appends to the candidate list. -/
theorem padPredictions_exists_append (catalog : List Icd10Info)
    (preds : List DiseasePrediction) :
    ∃ tail, padPredictions catalog preds = preds ++ tail := by
  induction preds using padPredictions.induct catalog with
  | case1 x h ih =>
    rw [padPredictions, dif_pos h]
    obtain ⟨tail, ht⟩ := ih
    exact ⟨padPrediction (catalog.get ⟨x.length, h.2⟩) x.length :: tail,
      by rw [ht, List.append_assoc]; rfl⟩
  | case2 x h =>
    rw [padPredictions, dif_neg h]
    exact ⟨[], (List.append_nil x).symm⟩

/-- Full characterization of the padding loop for a catalog with at least 3
entries: the existing candidates are preserved, the result has length
`max 3 |preds|`, and every padded position `j` carries the catalog entry at
index `j`. -/
theorem padPredictions_props (catalog : List Icd10Info) (h3 : 3 ≤ catalog.length)
    (preds : List DiseasePrediction) :
    (padPredictions catalog preds).length = max 3 preds.length
    ∧ (∀ j, j < preds.length → (padPredictions catalog preds).get? j = preds.get? j)
    ∧ (∀ j, preds.length ≤ j → j < 3 →
        (padPredictions catalog preds).get? j
          = (catalog.get? j).map (fun e => padPrediction e j)) := by
  induction preds using padPredictions.induct catalog with
  | case1 x h ih =>
    rw [padPredictions, dif_pos h]
    obtain ⟨ihlen, ihlow, ihhigh⟩ := ih
    have hxlen : (x ++ [padPrediction (catalog.get ⟨x.length, h.2⟩) x.length]).length
        = x.length + 1 := by simp
    refine ⟨?_, ?_, ?_⟩
    · rw [ihlen, hxlen]
      have h1 : x.length < 3 := h.1
      omega
    · intro j hj
      rw [ihlow j (by omega), List.get?_append (by omega)]
    · intro j hjl hjh
      rcases Nat.eq_or_lt_of_le hjl with hje | hjlt
      · rw [ihlow j (by omega), ← hje, List.get?_concat_length,
          List.get?_eq_get h.2]
        rfl
      · rw [ihhigh j (by omega) hjh]
  | case2 x h =>
    rw [padPredictions, dif_neg h]
    have hx3 : 3 ≤ x.length := by
      rcases Nat.lt_or_ge x.length 3 with hlt | hge
      · exact absurd ⟨hlt, by omega⟩ h
      · exact hge
    refine ⟨by omega, fun j _ => rfl, fun j hjl hjh => by omega⟩

/-- The four symptom/vital rules produce at most one candidate per `if`/`elif`
pair, so at most 2 candidates before the default rule and padding. -/
theorem branchPredictions_length (r : PatientRecord) :
    (branchPredictions r).length ≤ 2 := by
  rw [branchPredictions, List.length_append]
  have h1 : (branch12 r).length ≤ 1 := by
    rw [branch12]
    cases r.vital_temperature_c with
    | none => exact Nat.zero_le 1
    | some t =>
      dsimp only
      split_ifs <;> simp
  have h2 : (branch34 r).length ≤ 1 := by
    rw [branch34]
    split_ifs <;> simp
  omega

/-- The candidate list entering the padding loop has between 1 and 2 entries. -/
theorem branchesWithDefault_length (r : PatientRecord) :
    1 ≤ (branchesWithDefault r).length ∧ (branchesWithDefault r).length ≤ 2 := by
  rw [branchesWithDefault]
  split_ifs with h
  · simp
  · have := branchPredictions_length r
    have hne : branchPredictions r ≠ [] := by
      intro he
      rw [he] at h
      exact h rfl
    have : 0 < (branchPredictions r).length := List.length_pos.mpr hne
    constructor <;> omega

/-- C5, confirmed.  With a disease catalog of at least 3 entries the fallback
engine returns exactly 3 predictions: the rule candidates first, then padding
entries drawn sequentially from the catalog starting at index = current
candidate count, each built by `padPrediction` (confidence
`max(0.3 - index*0.1, 0.1)`, empty tests and medications, the generic
"Differential diagnosis consideration" rationale).  The record
`{symptoms: [], temperature: 36.5}` yields Z00.00 at confidence 0.40 followed
by two padded entries at confidences 0.2 and 0.1. -/
theorem C5_fallback_padding :
    (∀ (r : PatientRecord) (catalog : List Icd10Info), 3 ≤ catalog.length →
      (generate_dummy_predictions catalog r).length = 3
      ∧ (∀ j, j < (branchesWithDefault r).length →
          (generate_dummy_predictions catalog r).get? j = (branchesWithDefault r).get? j)
      ∧ (∀ j, (branchesWithDefault r).length ≤ j → j < 3 →
          (generate_dummy_predictions catalog r).get? j
            = (catalog.get? j).map (fun e => padPrediction e j)))
    ∧ (∀ e idx, (padPrediction e idx).confidence = max (3/10 - (idx : ℚ) / 10) (1/10)
        ∧ (padPrediction e idx).recommended_tests = []
        ∧ (padPrediction e idx).recommended_medications = []
        ∧ (padPrediction e idx).rationale = ["Differential diagnosis consideration"])
    ∧ (generate_dummy_predictions icd10_fallback
        { symptom_list := [], vital_temperature_c := some (73/2) }).map
          (fun p => (p.icd10_code, p.confidence))
        = [("Z00.00", 2/5), ("R50.9", 1/5), ("R51", 1/10)] := by
  refine ⟨?_, fun e idx => ⟨rfl, rfl, rfl, rfl⟩, by with_unfolding_all decide⟩
  intro r catalog h3
  obtain ⟨hlen, hlow, hhigh⟩ := padPredictions_props catalog h3 (branchesWithDefault r)
  obtain ⟨hb1, hb2⟩ := branchesWithDefault_length r
  have hmax : max 3 (branchesWithDefault r).length = 3 := by omega
  rw [hmax] at hlen
  refine ⟨?_, ?_, ?_⟩
  · rw [generate_dummy_predictions, List.length_take, hlen]
    omega
  · intro j hj
    rw [generate_dummy_predictions, List.get?_take (by omega), hlow j hj]
  · intro j hjl hjh
    rw [generate_dummy_predictions, List.get?_take hjh, hhigh j hjl hjh]

/-- C5, witness: with the hardcoded 4-entry fallback catalog and the all-empty
record, the engine returns exactly 3 predictions. -/
theorem C5_fallback_padding_witness :
    (generate_dummy_predictions icd10_fallback {}).length = 3 :=
  (C5_fallback_padding.1 {} icd10_fallback (by decide)).1

/-- Predictions with different ICD-10 codes are different. -/
theorem pred_ne_of_code {p q : DiseasePrediction} (h : p.icd10_code ≠ q.icd10_code) :
    p ≠ q :=
  fun he => h (congrArg DiseasePrediction.icd10_code he)

/-- The five rule candidates carry pairwise different ICD-10 codes. -/
theorem pneumonia_ne_fever (t s : ℚ) : pneumoniaPrediction t ≠ feverPrediction s :=
  pred_ne_of_code (show ("J18.9" : String) ≠ "R50.9" by decide)

theorem pneumonia_ne_headache (t : ℚ) : pneumoniaPrediction t ≠ headachePrediction :=
  pred_ne_of_code (show ("J18.9" : String) ≠ "R51" by decide)

theorem pneumonia_ne_bronchitis (t : ℚ) : pneumoniaPrediction t ≠ bronchitisPrediction :=
  pred_ne_of_code (show ("J18.9" : String) ≠ "J40" by decide)

theorem fever_ne_headache (t : ℚ) : feverPrediction t ≠ headachePrediction :=
  pred_ne_of_code (show ("R50.9" : String) ≠ "R51" by decide)

theorem fever_ne_bronchitis (t : ℚ) : feverPrediction t ≠ bronchitisPrediction :=
  pred_ne_of_code (show ("R50.9" : String) ≠ "J40" by decide)

theorem headache_ne_bronchitis : headachePrediction ≠ bronchitisPrediction :=
  pred_ne_of_code (show ("R51" : String) ≠ "J40" by decide)

theorem default_ne_pneumonia (t : ℚ) : defaultPrediction ≠ pneumoniaPrediction t :=
  pred_ne_of_code (show ("Z00.00" : String) ≠ "J18.9" by decide)

theorem default_ne_fever (t : ℚ) : defaultPrediction ≠ feverPrediction t :=
  pred_ne_of_code (show ("Z00.00" : String) ≠ "R50.9" by decide)

theorem default_ne_headache : defaultPrediction ≠ headachePrediction :=
  pred_ne_of_code (show ("Z00.00" : String) ≠ "R51" by decide)

theorem default_ne_bronchitis : defaultPrediction ≠ bronchitisPrediction :=
  pred_ne_of_code (show ("Z00.00" : String) ≠ "J40" by decide)

/-- A rule candidate (whose code is not Z00.00) is in the default-completed
candidate list exactly when some rule appended it. -/
theorem mem_branchesWithDefault_iff (r : PatientRecord) (p : DiseasePrediction)
    (hp : p.icd10_code ≠ "Z00.00") :
    p ∈ branchesWithDefault r ↔ p ∈ branchPredictions r := by
  rw [branchesWithDefault]
  split_ifs with h
  · rw [List.isEmpty_iff] at h
    simp only [List.mem_singleton, h, List.not_mem_nil, iff_false]
    intro he
    exact hp (congrArg DiseasePrediction.icd10_code he)
  · rfl

/-- C4, counterexample.  For the record {temperature 39 °C, symptoms
["cough"]}, branch 1 fires (first prediction J18.9 at 0.82) AND branch 4
also fires (second prediction J40 at 0.68), because branch 4 is the `elif`
of the headache test of branch 3, not of branch 1; under the claim the
second prediction would instead be a padded catalog entry. -/
theorem C4_counterexample :
    (generate_dummy_predictions icd10_fallback
      { vital_temperature_c := some 39, symptom_list := ["cough"] }).map
        (fun p => (p.icd10_code, p.confidence))
    = [("J18.9", 82/100), ("J40", 68/100), ("R51", 1/10)] := by
  with_unfolding_all decide

/-- C4, amended.  Branches 1, 2, 3 and 5 behave as claimed, but branch 4
(Bronchitis J40, 0.68) is the `elif` of branch 3, not of branch 1: it fires
iff some symptom contains "cough" AND no symptom contains "headache",
regardless of whether branch 1 fired.  The claimed scenario holds: the record
{age 54, female, 38.2 °C, ["fever", "productive cough"]} yields the Pneumonia
J18.9 prediction with confidence 0.82 first. -/
theorem C4_amended :
    (∀ r : PatientRecord,
      (∀ t, r.vital_temperature_c = some t →
        ((pneumoniaPrediction t ∈ branchesWithDefault r) ↔
          (¬t = 0 ∧ 38 < t ∧ anyContains r.symptom_list "cough" = true))
        ∧ ((feverPrediction t ∈ branchesWithDefault r) ↔
          (¬t = 0 ∧ 75/2 < t
            ∧ ¬(¬t = 0 ∧ 38 < t ∧ anyContains r.symptom_list "cough" = true))))
      ∧ ((headachePrediction ∈ branchesWithDefault r) ↔
          anyContains r.symptom_list "headache" = true)
      ∧ ((bronchitisPrediction ∈ branchesWithDefault r) ↔
          (anyContains r.symptom_list "cough" = true
            ∧ anyContains r.symptom_list "headache" = false))
      ∧ ((defaultPrediction ∈ branchesWithDefault r) ↔ branchPredictions r = []))
    ∧ (∀ catalog : List Icd10Info,
        (generate_dummy_predictions catalog
          { age := 54, sex := "female", vital_temperature_c := some (191/5),
            symptom_list := ["fever", "productive cough"] }).head?
          = some (pneumoniaPrediction (191/5)))
    ∧ (pneumoniaPrediction (191/5)).icd10_code = "J18.9"
    ∧ (pneumoniaPrediction (191/5)).diagnosis = "Pneumonia, unspecified organism"
    ∧ (pneumoniaPrediction (191/5)).confidence = 82/100 := by
  have hcond1 : ∀ (t : ℚ) (b : Bool),
      (!(t == 0) && decide ((38:ℚ) < t) && b) = true ↔ (¬t = 0 ∧ 38 < t ∧ b = true) := by
    intro t b
    simp [Bool.and_eq_true, Bool.not_eq_true', beq_eq_false_iff_ne, and_assoc]
  have hcond2 : ∀ t : ℚ,
      (!(t == 0) && decide ((75/2:ℚ) < t)) = true ↔ (¬t = 0 ∧ 75/2 < t) := by
    intro t
    simp [Bool.and_eq_true, Bool.not_eq_true', beq_eq_false_iff_ne]
  refine ⟨?_, ?_, rfl, rfl, rfl⟩
  · intro r
    refine ⟨?_, ?_, ?_, ?_⟩
    · intro t ht
      have h12 : branch12 r
          = if (!(t == 0) && decide ((38:ℚ) < t) && anyContains r.symptom_list "cough") = true
              then [pneumoniaPrediction t]
            else if (!(t == 0) && decide ((75/2:ℚ) < t)) = true then [feverPrediction t]
            else [] := by
        rw [branch12, ht]
      constructor
      · rw [mem_branchesWithDefault_iff r _ (show ("J18.9" : String) ≠ "Z00.00" by decide),
          branchPredictions, List.mem_append, h12]
        have h34 : pneumoniaPrediction t ∉ branch34 r := by
          rw [branch34]
          split_ifs <;>
            simp [pneumonia_ne_headache t, pneumonia_ne_bronchitis t]
        simp only [h34, or_false]
        split_ifs with h1 h2
        · rw [hcond1] at h1
          obtain ⟨ha, hb, hc⟩ := h1
          simp [ha, hb, hc]
        · rw [hcond1] at h1
          simp [pneumonia_ne_fever t t, h1]
        · rw [hcond1] at h1
          simp [h1]
      · rw [mem_branchesWithDefault_iff r _ (show ("R50.9" : String) ≠ "Z00.00" by decide),
          branchPredictions, List.mem_append, h12]
        have h34 : feverPrediction t ∉ branch34 r := by
          rw [branch34]
          split_ifs <;>
            simp [fever_ne_headache t, fever_ne_bronchitis t]
        simp only [h34, or_false]
        split_ifs with h1 h2
        · rw [hcond1] at h1
          obtain ⟨ha, hb, hc⟩ := h1
          simp only [List.mem_singleton, (pneumonia_ne_fever t t).symm, false_iff]
          intro hcontra
          exact hcontra.2.2 ⟨ha, hb, hc⟩
        · rw [hcond1] at h1
          rw [hcond2] at h2
          constructor
          · intro
            exact ⟨h2.1, h2.2, h1⟩
          · intro
            exact List.mem_singleton.mpr rfl
        · rw [hcond2] at h2
          simp only [List.not_mem_nil, false_iff]
          intro hcontra
          exact h2 ⟨hcontra.1, hcontra.2.1⟩
    · rw [mem_branchesWithDefault_iff r _ (show ("R51" : String) ≠ "Z00.00" by decide),
        branchPredictions, List.mem_append]
      have h12 : headachePrediction ∉ branch12 r := by
        rw [branch12]
        cases r.vital_temperature_c with
        | none => simp
        | some t =>
          dsimp only
          split_ifs <;>
            simp [(pneumonia_ne_headache t).symm, (fever_ne_headache t).symm]
      simp only [h12, false_or]
      rw [branch34]
      split_ifs with h3 h4
      · simp [h3]
      · simp [h3, headache_ne_bronchitis]
      · simp [h3]
    · rw [mem_branchesWithDefault_iff r _ (show ("J40" : String) ≠ "Z00.00" by decide),
        branchPredictions, List.mem_append]
      have h12 : bronchitisPrediction ∉ branch12 r := by
        rw [branch12]
        cases r.vital_temperature_c with
        | none => simp
        | some t =>
          dsimp only
          split_ifs <;>
            simp [(pneumonia_ne_bronchitis t).symm, (fever_ne_bronchitis t).symm]
      simp only [h12, false_or]
      rw [branch34]
      split_ifs with h3 h4
      · simp [h3, headache_ne_bronchitis.symm]
      · rw [Bool.not_eq_true] at h3
        simp [h3, h4]
      · rw [Bool.not_eq_true] at h3
        simp [h3, h4]
    · rw [branchesWithDefault]
      split_ifs with h
      · rw [List.isEmpty_iff] at h
        simp [h]
      · rw [List.isEmpty_iff] at h
        simp only [h, iff_false]
        rw [branchPredictions, List.mem_append]
        rintro (hm | hm)
        · revert hm
          rw [branch12]
          cases r.vital_temperature_c with
          | none => simp
          | some t =>
            dsimp only
            split_ifs <;>
              simp [default_ne_pneumonia t, default_ne_fever t]
        · revert hm
          rw [branch34]
          split_ifs <;>
            simp [default_ne_headache, default_ne_bronchitis]
  · intro catalog
    obtain ⟨tail, ht⟩ := padPredictions_exists_append catalog
      (branchesWithDefault
        { age := 54, sex := "female", vital_temperature_c := some (191/5),
          symptom_list := ["fever", "productive cough"] })
    rw [generate_dummy_predictions, ht]
    have hb : branchesWithDefault
        { age := 54, sex := "female", vital_temperature_c := some (191/5),
          symptom_list := ["fever", "productive cough"] }
        = [pneumoniaPrediction (191/5), bronchitisPrediction] := by
      with_unfolding_all decide
    rw [hb]
    rfl

/-- C4, witness: a record whose only trigger is a headache symptom fires
branch 3 and no temperature branch. -/
theorem C4_amended_witness :
    headachePrediction ∈ branchesWithDefault { symptom_list := ["headache"] } :=
  ((C4_amended.1 { symptom_list := ["headache"] }).2.1).mpr (by with_unfolding_all decide)

/-! ### Properties of the top-k selection -/

theorem topk_length (scores : List ℚ) (k : Nat) :
    (topk scores k).length = min k scores.length := by
  rw [topk, List.length_take,
    (List.perm_insertionSort scoreOrder scores.enum).length_eq, List.enum_length]

theorem topk_sorted (scores : List ℚ) (k : Nat) :
    List.Sorted scoreOrder (topk scores k) :=
  (List.sorted_insertionSort scoreOrder scores.enum).sublist (List.take_sublist k _)

theorem topk_mem (scores : List ℚ) (k : Nat) :
    ∀ a ∈ topk scores k, a ∈ scores.enum := by
  intro a ha
  exact (List.perm_insertionSort scoreOrder scores.enum).mem_iff.mp
    (List.mem_of_mem_take ha)

/-- Every selected entry beats (in score, with ties by index) every entry left
unselected. -/
theorem topk_dominates (scores : List ℚ) (k : Nat) :
    ∀ b ∈ scores.enum, b ∉ topk scores k → ∀ a ∈ topk scores k, scoreOrder a b := by
  intro b hb hbn a ha
  have hbs : b ∈ List.insertionSort scoreOrder scores.enum :=
    (List.perm_insertionSort scoreOrder scores.enum).mem_iff.mpr hb
  have hb2 : b ∈ (List.insertionSort scoreOrder scores.enum).drop k := by
    rcases List.mem_append.mp
        (by rw [List.take_append_drop]; exact hbs :
          b ∈ (List.insertionSort scoreOrder scores.enum).take k
            ++ (List.insertionSort scoreOrder scores.enum).drop k) with h | h
    · exact absurd h hbn
    · exact h
  have hpw : List.Pairwise scoreOrder
      ((List.insertionSort scoreOrder scores.enum).take k
        ++ (List.insertionSort scoreOrder scores.enum).drop k) := by
    rw [List.take_append_drop]
    exact List.sorted_insertionSort scoreOrder scores.enum
  exact (List.pairwise_append.mp hpw).2.2 a ha b hb2

/-- `filterMap` keeps exactly the entries whose image is `some`. -/
theorem length_filterMap_eq_count {α β : Type} (l : List α) (f : α → Option β) :
    (l.filterMap f).length = (l.filter (fun a => (f a).isSome)).length := by
  induction l with
  | nil => rfl
  | cons a t ih =>
    rw [List.filterMap_cons, List.filter_cons]
    cases hf : f a with
    | none => simp [hf, ih]
    | some b => simp [hf, ih]

/-- C2, counterexample.  With test scores [0.3, 0.2, 0.1] — all strictly below
the claimed 0.5 floor, so under the claim no test would qualify — the scored
path still attaches all three tests, at confidences 0.3, 0.2, 0.1, to every
returned prediction: no score floor is applied to tests in
`ClinicalPredictor.predict`. -/
theorem C2_counterexample :
    ((scoredPredictions icd10_fallback test_fallback med_fallback
        ⟨[1/2, 3/10, 1/10, 1/10], [3/10, 2/10, 1/10], [4/10, 1/10, 2/10]⟩).map
      (fun p => p.recommended_tests.map (fun tr => tr.confidence)))
      = [[3/10, 1/5, 1/10], [3/10, 1/5, 1/10], [3/10, 1/5, 1/10]]
    ∧ ((3:ℚ)/10 < 1/2 ∧ (1:ℚ)/5 < 1/2 ∧ (1:ℚ)/10 < 1/2) := by
  with_unfolding_all decide

/-- C2, amended.  The selector picks the top 3 disease entries by descending
score with ties broken by ascending catalog index (formalized by sortedness
of the selection in `scoreOrder` plus dominance of every selected over every
unselected entry); the recommended tests are the top 3 entries of
`test_scores` with NO score floor (entries whose index is missing from the
test catalog are skipped), the recommended medications are the top 2 entries
of `medication_scores` with no floor; and these two selections are computed
once globally and attached identically to every returned disease
prediction. -/
theorem C2_amended :
    (∀ (icd10Catalog : List Icd10Info) (testCatalog : List TestInfo)
        (medCatalog : List MedInfo) (out : ModelOutputs),
      ∀ p ∈ scoredPredictions icd10Catalog testCatalog medCatalog out,
        p.recommended_tests
          = buildTests testCatalog
              (topk out.test_probabilities (min 3 out.test_probabilities.length))
        ∧ p.recommended_medications
          = buildMeds medCatalog
              (topk out.medication_probabilities (min 2 out.medication_probabilities.length)))
    ∧ (∀ (scores : List ℚ) (k : Nat),
        List.Sorted scoreOrder (topk scores k)
        ∧ (topk scores k).length = min k scores.length
        ∧ (∀ a ∈ topk scores k, a ∈ scores.enum)
        ∧ (∀ b ∈ scores.enum, b ∉ topk scores k → ∀ a ∈ topk scores k, scoreOrder a b)) := by
  constructor
  · intro icd10Catalog testCatalog medCatalog out p hp
    simp only [scoredPredictions, List.mem_filterMap] at hp
    obtain ⟨ic, _, heq⟩ := hp
    cases hget : icd10Catalog.get? ic.1 with
    | none => rw [hget] at heq; exact absurd heq (by simp)
    | some info =>
      rw [hget, Option.map_some'] at heq
      rw [← Option.some_injective _ heq]
      exact ⟨rfl, rfl⟩
  · intro scores k
    exact ⟨topk_sorted scores k, topk_length scores k, topk_mem scores k,
      topk_dominates scores k⟩

/-- C2, witness: with scores [0.5, 0.7] and k = 1, the unselected entry
(index 0, score 0.5) is dominated by the selected entry (index 1, score
0.7). -/
theorem C2_amended_witness :
    scoreOrder (1, 7/10) (0, 1/2) :=
  ((C2_amended.2 [1/2, 7/10] 1).2.2.2 (0, 1/2) (by with_unfolding_all decide)
    (by with_unfolding_all decide) (1, 7/10) (by with_unfolding_all decide))

/-- C9, confirmed.  `predict` is a total function (it never raises); whenever
the scoring call fails, the result is exactly one prediction with code R69,
confidence 0.30, empty recommended tests and medications, and a rationale
string citing the failure. -/
theorem C9_error_absorption :
    ∀ (f : List ℚ → Except String ModelOutputs) (icd10Catalog : List Icd10Info)
      (testCatalog : List TestInfo) (medCatalog : List MedInfo)
      (r : PatientRecord) (e : String),
      f (reconcile (preprocess_input r) expected_dim) = Except.error e →
      predict (some f) icd10Catalog testCatalog medCatalog r = [errorPrediction e]
      ∧ (errorPrediction e).icd10_code = "R69"
      ∧ (errorPrediction e).confidence = 3/10
      ∧ (errorPrediction e).recommended_tests = []
      ∧ (errorPrediction e).recommended_medications = []
      ∧ (errorPrediction e).rationale = ["Prediction error: " ++ e] := by
  intro f icd10Catalog testCatalog medCatalog r e hf
  refine ⟨?_, rfl, rfl, rfl, rfl, rfl⟩
  rw [predict, hf]

/-- C9, witness: a scoring function that always raises yields exactly the
generic R69 prediction. -/
theorem C9_error_absorption_witness :
    predict (some (fun _ => Except.error "scoring failure")) icd10_fallback
      test_fallback med_fallback {} = [errorPrediction "scoring failure"] :=
  (C9_error_absorption (fun _ => Except.error "scoring failure") icd10_fallback
    test_fallback med_fallback {} "scoring failure" rfl).1

/-- C10, confirmed.  In the scored path a selected top-3 disease index absent
from the disease catalog is silently skipped with no replacement: the number
of returned predictions equals the number of selected indices present in the
catalog, is always at most 3, and can be smaller — even zero (empty catalog:
no predictions; 2-entry catalog with the top two scores at indices 2 and 3:
a single prediction). -/
theorem C10_skip_without_replacement :
    (∀ (icd10Catalog : List Icd10Info) (testCatalog : List TestInfo)
        (medCatalog : List MedInfo) (out : ModelOutputs),
      (scoredPredictions icd10Catalog testCatalog medCatalog out).length ≤ 3
      ∧ (scoredPredictions icd10Catalog testCatalog medCatalog out).length
          = ((topk out.disease_probabilities (min 3 out.disease_probabilities.length)).filter
              (fun ic => (icd10Catalog.get? ic.1).isSome)).length)
    ∧ scoredPredictions [] test_fallback med_fallback ⟨[1, 2, 3], [], []⟩ = []
    ∧ (scoredPredictions (icd10_fallback.take 2) test_fallback med_fallback
        ⟨[1/10, 2/10, 5/10, 4/10], [3/10], [4/10]⟩).length = 1 := by
  refine ⟨?_, by with_unfolding_all decide, by with_unfolding_all decide⟩
  intro icd10Catalog testCatalog medCatalog out
  have heq : (scoredPredictions icd10Catalog testCatalog medCatalog out).length
      = ((topk out.disease_probabilities (min 3 out.disease_probabilities.length)).filter
          (fun ic => (icd10Catalog.get? ic.1).isSome)).length := by
    simp only [scoredPredictions]
    rw [length_filterMap_eq_count]
    rw [List.filter_congr (fun ic _ => Option.isSome_map')]
  refine ⟨?_, heq⟩
  rw [heq]
  calc ((topk out.disease_probabilities (min 3 out.disease_probabilities.length)).filter
          (fun ic => (icd10Catalog.get? ic.1).isSome)).length
      ≤ (topk out.disease_probabilities (min 3 out.disease_probabilities.length)).length :=
        List.length_filter_le _ _
    _ ≤ 3 := by rw [topk_length]; omega

end PDPCDS
